import Mathlib

/-!
Verification of the MGP conversational tour-search assistant.

The repository consists of the chat-widget frontend (src/frontend/script.js,
whose second, production version is embedded here), the assistant's
system-prompt specification (src/debug_bundle 2/NOTES.md) and a QA report.
The backend orchestration core (cascade validator, search orchestrator,
fallback planner, date interpreter, hotel resolver) is not part of the
source tree; those components are modelled from the specification, as noted
in the doc comment of each such definition.
-/

namespace Mgp

/-! ## Dates (shared by the frontend formatter and the backend date model) -/

/-- A calendar date within one (non-leap) year: day of month and month. -/
structure SimpleDate where
  day : Nat
  month : Nat
deriving DecidableEq

/-- Days in each month of a non-leap year; `0` outside `1..12`. -/
def monthLength : Nat → Nat
  | 1 => 31
  | 2 => 28
  | 3 => 31
  | 4 => 30
  | 5 => 31
  | 6 => 30
  | 7 => 31
  | 8 => 31
  | 9 => 30
  | 10 => 31
  | 11 => 30
  | 12 => 31
  | _ => 0

/-- A date is valid when its month is in `1..12` and its day in
`1..monthLength month`. -/
def ValidDate (d : SimpleDate) : Prop :=
  1 ≤ d.day ∧ d.day ≤ monthLength d.month ∧ 1 ≤ d.month ∧ d.month ≤ 12

instance (d : SimpleDate) : Decidable (ValidDate d) := by
  unfold ValidDate; infer_instance

/-! ## Frontend embedding: src/frontend/script.js (production version) -/

/-- JavaScript values that can reach `formatPrice` according to the claim
under verification: `null`, `undefined`, the empty string, and numbers
(tour prices are non-negative integers, modelled as `Nat`). -/
inductive JSVal
  | jnull
  | jundef
  | jemptyStr
  | jnum (n : Nat)
deriving DecidableEq

/-- JavaScript truthiness test on the modelled values: `!price` in
`formatPrice` (script.js line 508). -/
def jsFalsy : JSVal → Bool
  | .jnull => true
  | .jundef => true
  | .jemptyStr => true
  | .jnum n => n == 0

/-- JavaScript `price.toString()` on the modelled values. -/
def jsToString : JSVal → String
  | .jnull => "null"
  | .jundef => "undefined"
  | .jemptyStr => ""
  | .jnum n => Nat.repr n

/-- Transliteration of the regex replacement
`replace(/\B(?=(\d{3})+(?!\d))/g, ' ')` of script.js line 509 on an
all-digit character list: a space is inserted at every inter-character
position (never before the first character, which is a word boundary)
that is followed by a positive multiple of three digits. -/
def sepChars : List Char → List Char
  | [] => []
  | c :: cs =>
    c :: (if cs.length % 3 = 0 ∧ cs.length ≠ 0 then ' ' :: sepChars cs else sepChars cs)

/-- `formatPrice` of script.js lines 507-510:
`if (!price) return '—'; return price.toString().replace(..., ' ')`. -/
def formatPrice (price : JSVal) : String :=
  if jsFalsy price then "—" else String.mk (sepChars (jsToString price).toList)

/-- `formatPrice` applied to an optional numeric field (`undefined` when
absent), as the tour card builder does. -/
def formatPriceOpt (o : Option Nat) : String :=
  match o with
  | some n => formatPrice (JSVal.jnum n)
  | none => formatPrice JSVal.jundef

/-- Spec-side grouping: the digit list split into groups of three counted
from the right (the leftmost group holding the remaining one or two
digits). Used to state what the regex of `formatPrice` achieves. -/
def chunksRight (cs : List Char) : List (List Char) :=
  if h : cs.length ≤ 3 then [cs]
  else
    cs.take (if cs.length % 3 = 0 then 3 else cs.length % 3) ::
      chunksRight (cs.drop (if cs.length % 3 = 0 then 3 else cs.length % 3))
termination_by cs.length
decreasing_by
  simp only [List.length_drop]
  split <;> omega

/-- Joins digit groups with a single space between adjacent groups. -/
def joinGroups : List (List Char) → List Char
  | [] => []
  | [g] => g
  | g :: g2 :: gs => g ++ ' ' :: joinGroups (g2 :: gs)

/-- Spec-side formatted number: decimal digits grouped by threes from the
right, groups separated by single spaces. -/
def groupRight3 (s : String) : String :=
  String.mk (joinGroups (chunksRight s.toList))



/-! ### Tour card builder (script.js lines 679-802, production version) -/

/-- JavaScript `x || d` on an optional string field: `none` models
`undefined`/`null`, and the empty string is falsy. -/
def jsOrS (o : Option String) (d : String) : String :=
  match o with
  | some s => if s = "" then d else s
  | none => d

/-- JavaScript `x || d` on an optional numeric field: `none` models
`undefined`/`null`, and `0` is falsy. -/
def jsOrN (o : Option Nat) (d : Nat) : Nat :=
  match o with
  | some n => if n = 0 then d else n
  | none => d

/-- JavaScript string `repeat`: the star glyph repeated `n` times. -/
def starRepeat : Nat → String
  | 0 => ""
  | n + 1 => "★" ++ starRepeat n

/-- `generateStars` of script.js lines 540-542:
`return '★'.repeat(count || 0)`. -/
def generateStars (count : Option Nat) : String :=
  starRepeat (jsOrN count 0)

/-- `getNightsWord` of script.js lines 547-554: the Russian plural form for
a night count. -/
def getNightsWord (nights : Nat) : String :=
  let n := nights % 100
  if 11 ≤ n ∧ n ≤ 19 then "ночей"
  else
    let lastDigit := n % 10
    if lastDigit = 1 then "ночь"
    else if 2 ≤ lastDigit ∧ lastDigit ≤ 4 then "ночи"
    else "ночей"

/-- `getMealDescription` of script.js lines 559-569:
`descriptions[foodType] || foodType || 'AI'`. -/
def getMealDescription (foodType : Option String) : String :=
  match foodType with
  | none => "AI"
  | some ft =>
    if ft = "RO" then "Без питания"
    else if ft = "BB" then "Только завтрак"
    else if ft = "HB" then "Завтрак и ужин"
    else if ft = "FB" then "Полный пансион"
    else if ft = "AI" then "Всё включено"
    else if ft = "UAI" then "Ультра всё включено"
    else if ft = "" then "AI"
    else ft

/-- HTML escaping of a single character, as `textContent`/`innerHTML` round
trips do for text nodes. -/
def escChar (c : Char) : String :=
  if c = '&' then "&amp;"
  else if c = '<' then "&lt;"
  else if c = '>' then "&gt;"
  else String.singleton c

/-- `escapeHtml` of script.js lines 583-588: empty input returns the empty
string, otherwise the text is HTML-escaped via a detached DOM node. -/
def escapeHtml (s : String) : String :=
  if s = "" then "" else String.join (s.toList.map escChar)

/-- Lowercasing as JavaScript `toLowerCase` performs it on the alphabets
occurring in this widget: ASCII plus the Cyrillic range А-Я and Ё. -/
def lowerChar (c : Char) : Char :=
  if 0x410 ≤ c.toNat ∧ c.toNat ≤ 0x42F then Char.ofNat (c.toNat + 0x20)
  else if c.toNat = 0x401 then Char.ofNat 0x451
  else c.toLower

/-- String lowercasing, character by character. -/
def lowerStr (s : String) : String := String.map lowerChar s

/-- JavaScript `String.prototype.includes`: `needle` occurs contiguously in
`hay`. -/
def hasSub (needle hay : List Char) : Bool :=
  match hay with
  | [] => needle.isEmpty
  | c :: rest => needle.isPrefixOf (c :: rest) || hasSub needle rest

/-- The country-keyed placeholder photos of `getPlaceholderImage`
(script.js lines 809-817), in source order. -/
def placeholderImages : List (String × String) :=
  [("турция", "https://images.unsplash.com/photo-1524231757912-21f4fe3a7200?w=400&h=300&fit=crop"),
   ("египет", "https://images.unsplash.com/photo-1539768942893-daf53e448371?w=400&h=300&fit=crop"),
   ("оаэ", "https://images.unsplash.com/photo-1512453979798-5ea266f8880c?w=400&h=300&fit=crop"),
   ("таиланд", "https://images.unsplash.com/photo-1552465011-b4e21bf6e79a?w=400&h=300&fit=crop"),
   ("мальдивы", "https://images.unsplash.com/photo-1514282401047-d79a71a590e8?w=400&h=300&fit=crop"),
   ("кипр", "https://images.unsplash.com/photo-1580996647286-a60cae5f8f80?w=400&h=300&fit=crop"),
   ("греция", "https://images.unsplash.com/photo-1533105079780-92b9be482077?w=400&h=300&fit=crop")]

/-- `getPlaceholderImage` of script.js lines 807-827: first matching country
key wins, otherwise the default beach image. -/
def getPlaceholderImage (country : String) : String :=
  let countryLower := lowerStr country
  match placeholderImages.find? (fun kv => hasSub kv.1.toList countryLower.toList) with
  | some kv => kv.2
  | none => "https://images.unsplash.com/photo-1507525428034-b723cf961d3e?w=400&h=300&fit=crop"

/-- Two-digit zero padding of a day or month number. -/
def pad2 (n : Nat) : String :=
  if n < 10 then "0" ++ Nat.repr n else Nat.repr n

/-- `formatShortDate` of script.js lines 528-535. The ISO date-string parse
plus ru-RU locale rendering is modelled as the zero-padded `dd.mm` of the
parsed calendar date; an absent or empty date string yields `""`. -/
def formatShortDate : Option SimpleDate → String
  | none => ""
  | some d => pad2 d.day ++ "." ++ pad2 d.month

/-- JavaScript `rating.toFixed(1)`. Hotel ratings carry one decimal digit
and are modelled in tenths, so the float formatting is exact. -/
def toFixed1 (tenths : Nat) : String :=
  Nat.repr (tenths / 10) ++ "." ++ Nat.repr (tenths % 10)

/-- `[country, resort].filter(Boolean).join(', ')` of script.js line 690. -/
def joinLocation (country resort : String) : String :=
  if country = "" then resort
  else if resort = "" then country
  else country ++ ", " ++ resort

/-- The offer record consumed by `createTourCardHTML` (script.js production
version). Every field the function reads is present; optional fields model
`undefined`. `hotel_rating` is in tenths (see `toFixed1`), dates are the
parsed calendar dates (see `formatShortDate`). -/
structure Tour where
  hotel_name : Option String
  hotel_stars : Option Nat
  stars_display : Option String
  hotel_rating : Option Nat
  operator : Option String
  country : Option String
  resort : Option String
  region : Option String
  date_from : Option SimpleDate
  date_to : Option SimpleDate
  nights : Option Nat
  price : Option Nat
  price_per_person : Option Nat
  meal_description : Option String
  food_type : Option String
  room_type : Option String
  image_url : Option String
  hotel_photo : Option String
  hotel_link : Option String
  original_link : Option String
  id : Option String
  departure_city : Option String
deriving DecidableEq

/-- `const stars = tour.hotel_stars || 4` (script.js line 682): an absent or
zero star rating defaults to 4. -/
def starsValueOf (t : Tour) : Nat := jsOrN t.hotel_stars 4

/-- `const starsDisplay = tour.stars_display || generateStars(stars)`
(script.js line 683). -/
def starsDisplayOf (t : Tour) : String :=
  jsOrS t.stars_display (generateStars (some (starsValueOf t)))

/-- `createTourCardHTML` of script.js lines 679-802 (production version):
builds the HTML card string for one offer. All locals mirror the source;
whitespace between tags is normalised to single newlines. -/
def createTourCardHTML (tour : Tour) (index : Nat) : String :=
  let hotelName := jsOrS tour.hotel_name "Неизвестный отель"
  let starsDisplay := starsDisplayOf tour
  let rating := tour.hotel_rating
  let operatorStr := jsOrS tour.operator ""
  let country := jsOrS tour.country ""
  let resort := jsOrS tour.resort (jsOrS tour.region "")
  let location := joinLocation country resort
  let dateFrom := formatShortDate tour.date_from
  let dateTo := formatShortDate tour.date_to
  let nights := jsOrN tour.nights 7
  let nightsWord := getNightsWord nights
  let price := formatPriceOpt tour.price
  let mealDesc := jsOrS tour.meal_description (getMealDescription tour.food_type)
  let roomType := jsOrS tour.room_type "Standard"
  let imageUrl := jsOrS tour.image_url (jsOrS tour.hotel_photo (getPlaceholderImage country))
  let hotelLink := jsOrS tour.hotel_link (jsOrS tour.original_link "#")
  let tourId := jsOrS tour.id (Nat.repr index)
  let departureCity := jsOrS tour.departure_city "Москва"
  "<div class=\"tour-card\" data-tour-id=\"" ++ escapeHtml tourId ++ "\">\n"
  ++ "<div class=\"tour-card-image-container\">\n"
  ++ "<img src=\"" ++ escapeHtml imageUrl ++ "\" alt=\"" ++ escapeHtml hotelName
  ++ "\" class=\"tour-card-image\" loading=\"lazy\" onerror=\"this.onerror=null; this.classList.add(\x27placeholder\x27); this.parentElement.innerHTML=\x27<div class=\\\x27tour-card-image placeholder\\\x27>🏨</div><div class=\\\x27tour-card-badge\\\x27>"
  ++ starsDisplay ++ "</div>\x27;\">\n"
  ++ "<div class=\"tour-card-badge\">" ++ starsDisplay ++ "</div>\n"
  ++ (match rating with
      | some r => if r = 0 then "" else "<div class=\"tour-card-rating\">" ++ toFixed1 r ++ "</div>"
      | none => "") ++ "\n"
  ++ (if operatorStr = "" then ""
      else "<div class=\"tour-card-operator\">" ++ escapeHtml operatorStr ++ "</div>") ++ "\n"
  ++ "</div>\n"
  ++ "<div class=\"tour-card-body\">\n"
  ++ "<div class=\"tour-card-hotel\">" ++ escapeHtml hotelName ++ "</div>\n"
  ++ "<div class=\"tour-card-location\">\n<span class=\"icon\">📍</span>\n<span>"
  ++ escapeHtml location ++ "</span>\n</div>\n"
  ++ "<div class=\"tour-card-info\">\n"
  ++ "<div class=\"tour-card-info-item highlight\">\n<span class=\"icon\">✈️</span>\n<div>\n<div class=\"label\">Перелёт</div>\n<div class=\"value\">Включён ("
  ++ escapeHtml departureCity ++ ")</div>\n</div>\n</div>\n"
  ++ "<div class=\"tour-card-info-item\">\n<span class=\"icon\">📅</span>\n<div>\n<div class=\"label\">Даты</div>\n<div class=\"value\">"
  ++ dateFrom ++ " – " ++ dateTo ++ "</div>\n</div>\n</div>\n"
  ++ "<div class=\"tour-card-info-item\">\n<span class=\"icon\">🌙</span>\n<div>\n<div class=\"label\">Ночей</div>\n<div class=\"value\">"
  ++ Nat.repr nights ++ " " ++ nightsWord ++ "</div>\n</div>\n</div>\n"
  ++ "<div class=\"tour-card-info-item\">\n<span class=\"icon\">🍽️</span>\n<div>\n<div class=\"label\">Питание</div>\n<div class=\"value\">"
  ++ escapeHtml mealDesc ++ "</div>\n</div>\n</div>\n"
  ++ "<div class=\"tour-card-info-item\">\n<span class=\"icon\">🛏️</span>\n<div>\n<div class=\"label\">Номер</div>\n<div class=\"value room-badge\">"
  ++ escapeHtml roomType ++ "</div>\n</div>\n</div>\n"
  ++ "</div>\n"
  ++ "<div class=\"tour-card-price-section\">\n<div class=\"tour-card-price\">\n<div class=\"tour-card-price-value\">"
  ++ price ++ "<span class=\"currency\">₽</span></div>\n<div class=\"tour-card-price-label\">за тур</div>\n</div>\n"
  ++ (match tour.price_per_person with
      | some n =>
        if n = 0 then ""
        else "<div class=\"tour-card-price-per-person\">\n<strong>"
          ++ formatPriceOpt (some n) ++ " ₽</strong><br>за человека\n</div>"
      | none => "") ++ "\n"
  ++ "</div>\n"
  ++ "<div class=\"tour-card-actions\">\n"
  ++ "<a href=\"" ++ escapeHtml hotelLink ++ "\" class=\"btn-book\" target=\"_blank\" rel=\"noopener\">\n✈️ Оформить тур\n</a>\n"
  ++ "<button class=\"btn-details\" onclick=\"window.MGPChat.bookTour(\x27"
  ++ escapeHtml hotelName ++ "\x27)\">\nЗабронировать через чат\n</button>\n"
  ++ "</div>\n"
  ++ "</div>\n"
  ++ "</div>\n"

/-! ## Backend orchestration core, modelled from the specification

The orchestration backend (the FastAPI app of NOTES.md) is not in the
source tree; only its system-prompt specification and QA report are. The
definitions below are modelled from the specification (spec.md §3, §4 and
NOTES.md §2, §3, §5). -/

/-- Modelled from the spec: the tagged intent variants of spec.md §9, which
the missing backend's slot/intent extractor produces. -/
inductive Intent
  | specificHotel
  | hotTours
  | parametricSearch
  | faq
  | invalidCountry
  | greeting
deriving DecidableEq

/-- Modelled from the spec: the clarifying-question kinds the missing
Cascade Validator can emit (spec.md §4.1); `childAge k` asks for the age of
the `k`-th declared child. -/
inductive QuestionKind
  | destination
  | departure
  | dates
  | adultsCount
  | childAge (k : Nat)
  | starRating
deriving DecidableEq

/-- Modelled from the spec: the Cascade Validator outcome — a single next
question, `proceed` to search, or the dedicated invalid-country outcome. -/
inductive CascadeResult
  | nextQuestion (q : QuestionKind)
  | proceed
  | invalidCountryMsg
deriving DecidableEq

/-- Modelled from the spec: the `SearchParams` record of spec.md §3
accumulated by the missing Session Store. -/
structure SearchParams where
  destination_country : Option String
  departure_city : Option String
  date_from : Option SimpleDate
  nights : Option Nat
  adults : Option Nat
  child_count : Option Nat
  child_ages : List Nat
  hotels : List Nat
  stars : Option Nat
  meal : Option String
  budget : Option Nat
  skip_quality_check : Bool
deriving DecidableEq

/-- A `SearchParams` with nothing collected yet. -/
def emptyParams : SearchParams :=
  { destination_country := none, departure_city := none, date_from := none,
    nights := none, adults := none, child_count := none, child_ages := [],
    hotels := [], stars := none, meal := none, budget := none,
    skip_quality_check := false }

/-- Declared child count (0 when no children were declared). -/
def childCount (p : SearchParams) : Nat := p.child_count.getD 0

/-- Modelled from the spec: the first declared child still missing an age,
1-based (NOTES.md: children without ages block any search). -/
def missingChildIndex (p : SearchParams) : Option Nat :=
  if p.child_ages.length < childCount p then some (p.child_ages.length + 1) else none

/-- The required slots of the cascade, to state the fixed question order. -/
inductive Slot
  | destination
  | departure
  | dates
  | adultsCount
  | childAges
deriving DecidableEq

/-- The fixed required-slot order of spec.md §4.1. -/
def slotOrder : List Slot :=
  [Slot.destination, Slot.departure, Slot.dates, Slot.adultsCount, Slot.childAges]

/-- Whether a required slot is satisfied in the current `SearchParams`; the
child-ages slot is satisfied when every declared child has an age. -/
def slotSatisfied (p : SearchParams) : Slot → Bool
  | .destination => p.destination_country.isSome
  | .departure => p.departure_city.isSome
  | .dates => p.date_from.isSome
  | .adultsCount => p.adults.isSome
  | .childAges => decide (childCount p ≤ p.child_ages.length)

/-- The earliest unsatisfied required slot in the fixed order. -/
def earliestMissingSlot (p : SearchParams) : Option Slot :=
  slotOrder.find? (fun s => !slotSatisfied p s)

/-- The clarifying question belonging to a required slot. -/
def questionOf (p : SearchParams) : Slot → QuestionKind
  | .destination => .destination
  | .departure => .departure
  | .dates => .dates
  | .adultsCount => .adultsCount
  | .childAges => .childAge (p.child_ages.length + 1)

/-- Modelled from the spec: the required-slot cascade of the missing
Cascade Validator (spec.md §4.1, NOTES.md Шаг 2): destination country, then
departure city, then dates, then adults, then one question per missing
child age. -/
def cascadeRequired (p : SearchParams) : Option QuestionKind :=
  if p.destination_country.isNone then some QuestionKind.destination
  else if p.departure_city.isNone then some QuestionKind.departure
  else if p.date_from.isNone then some QuestionKind.dates
  else if p.adults.isNone then some QuestionKind.adultsCount
  else
    match missingChildIndex p with
    | some k => some (QuestionKind.childAge k)
    | none => none

/-- Modelled from the spec: the broad-search question flow — the required
cascade, then (broad mode only, when no resolved hotel forced
`skip_quality_check`) the optional star-rating question, then proceed. -/
def cascadeQuestion (p : SearchParams) : CascadeResult :=
  match cascadeRequired p with
  | some q => CascadeResult.nextQuestion q
  | none =>
    if p.hotels.isEmpty && !p.skip_quality_check && p.stars.isNone
    then CascadeResult.nextQuestion QuestionKind.starRating
    else CascadeResult.proceed

/-- Modelled from the spec: the missing Cascade Validator's top-level
contract (spec.md §4.1). The hot-tours intent bypasses everything but the
departure city; the explicit-hotel intent runs the required cascade and
skips the star/meal question entirely; FAQ and greeting turns never ask
cascade questions; a non-sellable destination yields the dedicated
invalid-country outcome. -/
def cascadeValidate (intent : Intent) (p : SearchParams) : CascadeResult :=
  match intent with
  | .specificHotel =>
    match cascadeRequired p with
    | some q => CascadeResult.nextQuestion q
    | none => CascadeResult.proceed
  | .parametricSearch => cascadeQuestion p
  | .hotTours =>
    if p.departure_city.isNone then CascadeResult.nextQuestion QuestionKind.departure
    else CascadeResult.proceed
  | .invalidCountry => CascadeResult.invalidCountryMsg
  | .faq => CascadeResult.proceed
  | .greeting => CascadeResult.proceed

/-- Modelled from the spec: the slot deltas one user turn can volunteer
(spec.md §2, §4.1). The explicit hotel list and `skip_quality_check` are
owned by the Hotel Resolver (spec.md §4.2) and are not user-settable slots,
so they do not appear here. -/
structure Delta where
  destination_country : Option String
  departure_city : Option String
  date_from : Option SimpleDate
  nights : Option Nat
  adults : Option Nat
  child_count : Option Nat
  add_child_age : Option Nat
  stars : Option Nat
  meal : Option String
  budget : Option Nat
deriving DecidableEq

/-- A delta value overrides the stored one; otherwise the stored value is
kept. -/
def mergeField {α : Type} (new old : Option α) : Option α :=
  match new with
  | some v => some v
  | none => old

/-- Modelled from the spec: merging a turn's volunteered slot values into
the session's `SearchParams` — volunteered values are accepted and stored
immediately (spec.md §4.1), a volunteered child age is appended to the
ordered age list. -/
def applyDelta (p : SearchParams) (d : Delta) : SearchParams :=
  { destination_country := mergeField d.destination_country p.destination_country,
    departure_city := mergeField d.departure_city p.departure_city,
    date_from := mergeField d.date_from p.date_from,
    nights := mergeField d.nights p.nights,
    adults := mergeField d.adults p.adults,
    child_count := mergeField d.child_count p.child_count,
    child_ages :=
      match d.add_child_age with
      | some a => p.child_ages ++ [a]
      | none => p.child_ages,
    hotels := p.hotels,
    stars := mergeField d.stars p.stars,
    meal := mergeField d.meal p.meal,
    budget := mergeField d.budget p.budget,
    skip_quality_check := p.skip_quality_check }

/-! ### Hotel Resolver (spec.md §4.2), modelled from the spec -/

/-- A canonical hotel record from the lookup directory. -/
structure Hotel where
  id : Nat
  name : String
  stars : Nat
deriving DecidableEq

/-- Modelled from the spec: the three outcomes of the missing Hotel
Resolver's `resolve` (spec.md §4.2). -/
inductive ResolveResult
  | singleMatch (h : Hotel)
  | disambiguationSet (hs : List Hotel)
  | noMatch
deriving DecidableEq

/-- Modelled from the spec: applying a resolution outcome to the session
state. A single match sets the explicit hotel list to `[id]`, forces
`skip_quality_check = true` and fills the star slot from the match's data
(spec.md §4.2, NOTES.md СЛУЧАЙ А). Ambiguity and no-match leave the state
unchanged (the orchestrator re-asks). -/
def applyResolve (p : SearchParams) : ResolveResult → SearchParams
  | .singleMatch h =>
    { destination_country := p.destination_country,
      departure_city := p.departure_city,
      date_from := p.date_from,
      nights := p.nights,
      adults := p.adults,
      child_count := p.child_count,
      child_ages := p.child_ages,
      hotels := [h.id],
      stars := some h.stars,
      meal := p.meal,
      budget := p.budget,
      skip_quality_check := true }
  | .disambiguationSet _ => p
  | .noMatch => p

/-- A conversation event after hotel resolution: another user turn's slot
deltas, or another resolver outcome. -/
inductive ConvEvent
  | userDelta (d : Delta)
  | hotelResolved (r : ResolveResult)

/-- One conversation step on the session's `SearchParams`. -/
def convStep (p : SearchParams) : ConvEvent → SearchParams
  | .userDelta d => applyDelta p d
  | .hotelResolved r => applyResolve p r

/-- A conversation run: folding events over the session state. -/
def convRun (p : SearchParams) (es : List ConvEvent) : SearchParams :=
  es.foldl convStep p

/-! ### Date interpretation (spec.md §4.1), modelled from the spec -/

/-- Days in the year strictly before month `m` (months are 1-based). -/
def daysBeforeMonth : Nat → Nat
  | 0 => 0
  | m + 1 => daysBeforeMonth m + monthLength m

/-- Ordinal day of the year of a date. -/
def dayOfYear (d : SimpleDate) : Nat := daysBeforeMonth d.month + d.day

/-- The number of days from date `x` forward to date `y`. -/
def daysBetween (x y : SimpleDate) : Nat := dayOfYear y - dayOfYear x

/-- The calendar successor of a date (month rollover included). -/
def nextDay (d : SimpleDate) : SimpleDate :=
  if d.day < monthLength d.month then ⟨d.day + 1, d.month⟩ else ⟨1, d.month + 1⟩

/-- Modelled from the spec: the missing date interpreter's handling of an
explicit "from X to Y" range — `date_from = X`, `nights = Y − X` in days
(spec.md §4.1, NOTES.md Smart Dates). -/
def interpretDateRange (x y : SimpleDate) (p : SearchParams) : SearchParams :=
  { destination_country := p.destination_country,
    departure_city := p.departure_city,
    date_from := some x,
    nights := some (daysBetween x y),
    adults := p.adults,
    child_count := p.child_count,
    child_ages := p.child_ages,
    hotels := p.hotels,
    stars := p.stars,
    meal := p.meal,
    budget := p.budget,
    skip_quality_check := p.skip_quality_check }

/-! ### Search Orchestrator request lifecycle (spec.md §3, §4.3),
modelled from the spec -/

/-- Status of the request currently owned by the orchestrator. -/
inductive ReqStatus
  | pending
  | ready
  | failed
deriving DecidableEq

/-- Modelled from the spec: the orchestrator's per-conversation request
state — a fresh-id counter, the current request (id and status), the ids of
abandoned requests, and the ids whose result sets were delivered. -/
structure OrchState where
  nextId : Nat
  current : Option (Nat × ReqStatus)
  abandoned : List Nat
  delivered : List Nat
deriving DecidableEq

/-- The orchestrator state of a conversation before any search. -/
def orchInit : OrchState :=
  { nextId := 0, current := none, abandoned := [], delivered := [] }

/-- Events driving the request lifecycle: a user turn (flagged when it
changes a search-affecting slot), the remote job for a request id becoming
ready, the poll-attempts ceiling being exceeded, and a synchronous
hot-tours call. -/
inductive OrchEvent
  | userTurn (changesSlots : Bool)
  | resultReady (id : Nat)
  | pollLimit
  | hotToursCall

/-- Modelled from the spec: the missing Search Orchestrator's request
lifecycle (spec.md §4.3). A slot-changing user turn abandons a pending
request and submits a fresh one; a result is delivered only for the
currently pending request (a superseded request's late result is ignored);
exceeding the poll ceiling fails the request; a hot-tours call is
synchronous and creates no polling request state. -/
def orchStep (s : OrchState) : OrchEvent → OrchState
  | .userTurn true =>
    match s.current with
    | some (id, .pending) =>
      { nextId := s.nextId + 1, current := some (s.nextId, ReqStatus.pending),
        abandoned := id :: s.abandoned, delivered := s.delivered }
    | _ =>
      { nextId := s.nextId + 1, current := some (s.nextId, ReqStatus.pending),
        abandoned := s.abandoned, delivered := s.delivered }
  | .userTurn false => s
  | .resultReady id =>
    match s.current with
    | some (cid, .pending) =>
      if cid = id then
        { nextId := s.nextId, current := some (cid, ReqStatus.ready),
          abandoned := s.abandoned, delivered := id :: s.delivered }
      else s
    | _ => s
  | .pollLimit =>
    match s.current with
    | some (cid, .pending) =>
      { nextId := s.nextId, current := some (cid, ReqStatus.failed),
        abandoned := s.abandoned, delivered := s.delivered }
    | _ => s
  | .hotToursCall => s

/-- A run of the request lifecycle from a state over an event list. -/
def orchRun (s : OrchState) (es : List OrchEvent) : OrchState :=
  es.foldl orchStep s

/-- The lifecycle invariant: ids are below the fresh counter, the current
request is never an abandoned one, a pending request was never delivered,
and no delivered request is abandoned. -/
def OrchInv (s : OrchState) : Prop :=
  (∀ a ∈ s.abandoned, a < s.nextId) ∧
  (∀ d ∈ s.delivered, d < s.nextId) ∧
  (∀ id st, s.current = some (id, st) → id < s.nextId ∧ id ∉ s.abandoned) ∧
  (∀ id, s.current = some (id, ReqStatus.pending) → id ∉ s.delivered) ∧
  (∀ d ∈ s.delivered, d ∉ s.abandoned)

/-! ### Result Filter and Fallback Planner (spec.md §4.4), modelled from
the spec -/

/-- Modelled from the spec: the inputs the missing Fallback Planner
consults on an empty filtered result set — how far the date window is
already widened (the default submission is ±2 days, spec.md §4.3), the
configured viable departure cities, a configured similar alternate
destination, and the session's `SearchParams`. -/
structure FallbackState where
  widenDays : Nat
  viableCities : List String
  similarDestination : String
  params : SearchParams
deriving DecidableEq

/-- The three fallback proposals of spec.md §4.4, in priority order. -/
inductive FallbackAction
  | widenDates (days : Nat)
  | altCity (city : String)
  | altDestination (dest : String)
deriving DecidableEq

/-- The alternate departure city proposed when more than one is viable. -/
def altCityOf (st : FallbackState) : String := st.viableCities.getD 1 ""

/-- Modelled from the spec: the fallback actions applicable to the state,
in the fixed priority order — widen the date window further (up to ±5 days
from the original), else an alternate departure city when more than one is
configured as viable, else the alternate similar destination (always
proposable from configuration). -/
def fallbackCandidates (st : FallbackState) : List FallbackAction :=
  (if st.widenDays < 5 then [FallbackAction.widenDates (st.widenDays + 1)] else []) ++
  (if 1 < st.viableCities.length then [FallbackAction.altCity (altCityOf st)] else []) ++
  [FallbackAction.altDestination st.similarDestination]

/-- Modelled from the spec: the proposals the planner emits for one turn —
the first applicable candidate only (exactly one fallback per turn,
spec.md §4.4, NOTES.md Шаг 4). -/
def planFallback (st : FallbackState) : List FallbackAction :=
  (fallbackCandidates st).take 1

/-- Modelled from the spec: handling an empty filtered result set — the
planner proposes, and the session's constraints (explicit hotels, dates)
are left untouched: a fallback is a user-visible proposal, never an
invisible substitution. -/
def handleEmptyResult (st : FallbackState) : FallbackState × List FallbackAction :=
  (st, planFallback st)

/-! ### Hot-tours search (spec.md §4.3, NOTES.md СЛУЧАЙ Б), modelled from
the spec -/

/-- A hot-tour offer as returned by the synchronous `hottours.php` call
(NOTES.md Tool 3), with its departure city and country ids. -/
structure HotTour where
  tourid : Nat
  hotelname : String
  price : Nat
  flydate : String
  nights : Nat
  depCity : Nat
  country : Nat
deriving DecidableEq

/-- Ordered insertion by price (ascending). -/
def insertByPrice (o : HotTour) : List HotTour → List HotTour
  | [] => [o]
  | x :: xs => if o.price ≤ x.price then o :: x :: xs else x :: insertByPrice o xs

/-- Insertion sort by ascending price. -/
def sortByPrice : List HotTour → List HotTour
  | [] => []
  | x :: xs => insertByPrice x (sortByPrice xs)

/-- Whether a hot-tour offer matches the requested departure city and
(optional) country. -/
def hotMatches (departure : Nat) (country : Option Nat) (o : HotTour) : Bool :=
  o.depCity == departure &&
    (match country with
     | some c => o.country == c
     | none => true)

/-- Modelled from the spec: the missing `get_hot_tours` path — one
synchronous call over the inventory, at most `maxItems` offers, sorted
ascending by price before return (spec.md §4.3, NOTES.md Tool 3 and
СЛУЧАЙ Б). -/
def get_hot_tours (inventory : List HotTour) (departure : Nat)
    (country : Option Nat) (maxItems : Nat) : List HotTour :=
  sortByPrice ((inventory.filter (hotMatches departure country)).take maxItems)

/-- Ascending-price sortedness of an offer list. -/
def PriceSorted (l : List HotTour) : Prop :=
  List.Pairwise (fun a b => a.price ≤ b.price) l


/-! ## Concrete sample inputs (used by the closed instance theorems) -/

/-- A fully populated sample offer. -/
def sampleTour : Tour :=
  { hotel_name := some "Rixos Premium Belek", hotel_stars := some 5,
    stars_display := none, hotel_rating := some 47, operator := some "TUI",
    country := some "Турция", resort := some "Белек", region := none,
    date_from := some ⟨1, 7⟩, date_to := some ⟨8, 7⟩, nights := some 7,
    price := some 185000, price_per_person := some 92500,
    meal_description := none, food_type := some "AI",
    room_type := some "Standard", image_url := none,
    hotel_photo := some "https://example.com/rixos.jpg",
    hotel_link := some "https://example.com/tour", original_link := none,
    id := some "12345", departure_city := some "Москва" }

/-- An offer with every optional field absent (in particular no star
rating and no stars_display override). -/
def noStarsTour : Tour :=
  { hotel_name := some "Hotel", hotel_stars := none, stars_display := none,
    hotel_rating := none, operator := none, country := none, resort := none,
    region := none, date_from := none, date_to := none, nights := none,
    price := none, price_per_person := none, meal_description := none,
    food_type := none, room_type := none, image_url := none,
    hotel_photo := none, hotel_link := none, original_link := none,
    id := none, departure_city := none }

/-- A session that has only the destination country so far. -/
def pC1 : SearchParams :=
  { destination_country := some "Турция", departure_city := none,
    date_from := none, nights := none, adults := none, child_count := none,
    child_ages := [], hotels := [], stars := none, meal := none,
    budget := none, skip_quality_check := false }

/-- A session with two declared children but only one collected age. -/
def pC2 : SearchParams :=
  { destination_country := some "Египет", departure_city := some "Москва",
    date_from := some ⟨1, 6⟩, nights := some 7, adults := some 2,
    child_count := some 2, child_ages := [5], hotels := [], stars := none,
    meal := none, budget := none, skip_quality_check := false }

/-- A delta that only volunteers an optional star filter. -/
def dStars : Delta :=
  { destination_country := none, departure_city := none, date_from := none,
    nights := none, adults := none, child_count := none,
    add_child_age := none, stars := some 5, meal := none, budget := none }

/-- A fallback-planner state at the default ±2-day window with two viable
departure cities configured. -/
def fbSample : FallbackState :=
  { widenDays := 2, viableCities := ["Москва", "Санкт-Петербург"],
    similarDestination := "Египет", params := emptyParams }

/-! ## Supporting lemmas -/

/-- The required cascade asks exactly the question of the earliest
unsatisfied required slot in the fixed order. -/
theorem cascadeRequired_eq_find (p : SearchParams) :
    cascadeRequired p = (earliestMissingSlot p).map (questionOf p) := by
  unfold cascadeRequired earliestMissingSlot slotOrder missingChildIndex
  cases hdc : p.destination_country <;> cases hcity : p.departure_city <;>
    cases hdf : p.date_from <;> cases had : p.adults <;>
      by_cases hch : p.child_ages.length < childCount p <;>
        simp [List.find?, slotSatisfied, questionOf, hdc, hcity, hdf, had, hch,
          Nat.not_lt, Nat.le_of_lt]
  all_goals
    first
      | (rw [decide_eq_false (Nat.not_le.mpr hch)]; rfl)
      | (rw [decide_eq_true (Nat.not_lt.mp hch)]; rfl)


theorem chunksRight_ne_nil (cs : List Char) : chunksRight cs ≠ [] := by
  rw [chunksRight]
  split <;> simp

theorem sepChars_short (cs : List Char) (h : cs.length ≤ 3) : sepChars cs = cs := by
  match cs with
  | [] => rfl
  | [a] => rfl
  | [a, b] => rfl
  | [a, b, c] => rfl
  | a :: b :: c :: d :: rest => simp at h

theorem sepChars_cons_sep (a : Char) (cs : List Char)
    (h0 : cs.length % 3 = 0) (hne : cs.length ≠ 0) :
    sepChars (a :: cs) = a :: ' ' :: sepChars cs := by
  simp only [sepChars]
  rw [if_pos ⟨h0, hne⟩]

theorem sepChars_cons_nosep (a : Char) (cs : List Char)
    (h : ¬(cs.length % 3 = 0 ∧ cs.length ≠ 0)) :
    sepChars (a :: cs) = a :: sepChars cs := by
  simp only [sepChars]
  rw [if_neg h]

/-- Decomposition of the regex transliteration: on a list longer than three,
the first right-aligned group is emitted, then a space, then the rest. -/
theorem sepChars_decomp (cs : List Char) (h : 3 < cs.length) :
    sepChars cs =
      cs.take (if cs.length % 3 = 0 then 3 else cs.length % 3) ++
        ' ' :: sepChars (cs.drop (if cs.length % 3 = 0 then 3 else cs.length % 3)) := by
  match cs with
  | a :: b :: c :: d :: rest =>
    have hlen : (a :: b :: c :: d :: rest).length = rest.length + 4 := by
      simp only [List.length_cons]
    have hm : (a :: b :: c :: d :: rest).length % 3 = 0 ∨
        (a :: b :: c :: d :: rest).length % 3 = 1 ∨
        (a :: b :: c :: d :: rest).length % 3 = 2 := by omega
    rcases hm with h0 | h1 | h2
    · -- length ≡ 0 (mod 3): the first group has three characters
      rw [if_pos h0]
      rw [sepChars_cons_nosep a (b :: c :: d :: rest)
            (by simp only [List.length_cons]; simp only [List.length_cons] at h0; omega),
          sepChars_cons_nosep b (c :: d :: rest)
            (by simp only [List.length_cons]; simp only [List.length_cons] at h0; omega),
          sepChars_cons_sep c (d :: rest)
            (by simp only [List.length_cons]; simp only [List.length_cons] at h0; omega)
            (by simp only [List.length_cons]; omega)]
      rfl
    · -- length ≡ 1 (mod 3): the first group is a single character
      rw [if_neg (by omega), h1]
      rw [sepChars_cons_sep a (b :: c :: d :: rest)
            (by simp only [List.length_cons]; simp only [List.length_cons] at h1; omega)
            (by simp only [List.length_cons]; omega)]
      rfl
    · -- length ≡ 2 (mod 3): the first group has two characters
      rw [if_neg (by omega), h2]
      rw [sepChars_cons_nosep a (b :: c :: d :: rest)
            (by simp only [List.length_cons]; simp only [List.length_cons] at h2; omega),
          sepChars_cons_sep b (c :: d :: rest)
            (by simp only [List.length_cons]; simp only [List.length_cons] at h2; omega)
            (by simp only [List.length_cons]; omega)]
      rfl

theorem sepChars_eq_joinGroups_aux :
    ∀ n (cs : List Char), cs.length ≤ n → sepChars cs = joinGroups (chunksRight cs) := by
  intro n
  induction n with
  | zero =>
    intro cs hlen
    have : cs = [] := List.eq_nil_of_length_eq_zero (Nat.le_zero.mp hlen)
    subst this
    rw [chunksRight]
    simp [sepChars, joinGroups]
  | succ n ih =>
    intro cs hlen
    by_cases h3 : cs.length ≤ 3
    · rw [chunksRight, dif_pos h3, sepChars_short cs h3]
      rfl
    · push_neg at h3
      rw [chunksRight, dif_neg (by omega), sepChars_decomp cs h3]
      obtain ⟨g, gs, hgs⟩ :
          ∃ g gs, chunksRight (cs.drop (if cs.length % 3 = 0 then 3 else cs.length % 3)) = g :: gs := by
        cases hc : chunksRight (cs.drop (if cs.length % 3 = 0 then 3 else cs.length % 3)) with
        | nil => exact absurd hc (chunksRight_ne_nil _)
        | cons g gs => exact ⟨g, gs, rfl⟩
      rw [hgs, joinGroups]
      have hdrop :
          sepChars (cs.drop (if cs.length % 3 = 0 then 3 else cs.length % 3)) =
            joinGroups (chunksRight (cs.drop (if cs.length % 3 = 0 then 3 else cs.length % 3))) := by
        apply ih
        simp only [List.length_drop]
        split <;> omega
      rw [hdrop, hgs]

/-- The regex transliteration computes exactly the right-aligned grouping by
threes with single-space separators. -/
theorem sepChars_eq_joinGroups (cs : List Char) :
    sepChars cs = joinGroups (chunksRight cs) :=
  sepChars_eq_joinGroups_aux cs.length cs (Nat.le_refl _)

theorem starRepeat_length (n : Nat) : (starRepeat n).length = n := by
  induction n with
  | zero => rfl
  | succ n ih =>
    have h1 : ("★" : String).length = 1 := rfl
    rw [starRepeat, String.length_append, ih, h1]
    omega

/-! ## Claims about the Response Assembler (script.js) -/

/-- C10: `formatPrice` maps 0, null, undefined and the empty string to the
dash placeholder "—", and any positive price to its decimal digits grouped
by threes counted from the right, groups separated by single spaces; in
particular 185000 renders as "185 000", and a price of exactly 0 renders as
missing, never as "0". -/
theorem formatPrice_spec :
    formatPrice JSVal.jnull = "—" ∧ formatPrice JSVal.jundef = "—" ∧
    formatPrice (JSVal.jnum 0) = "—" ∧ formatPrice JSVal.jemptyStr = "—" ∧
    (∀ n : Nat, 0 < n → formatPrice (JSVal.jnum n) = groupRight3 (Nat.repr n)) ∧
    formatPrice (JSVal.jnum 185000) = "185 000" := by
  refine ⟨rfl, rfl, rfl, rfl, ?_, by decide⟩
  intro n hn
  have hf : ¬ jsFalsy (JSVal.jnum n) = true := by
    simp [jsFalsy]
    omega
  show (if jsFalsy (JSVal.jnum n) = true then "—"
        else String.mk (sepChars (jsToString (JSVal.jnum n)).toList)) = groupRight3 (Nat.repr n)
  rw [if_neg hf, sepChars_eq_joinGroups]
  rfl

/-- Closed instance of the C10 grouping law at the price 1234567. -/
theorem formatPrice_spec_witness :
    formatPrice (JSVal.jnum 1234567) = groupRight3 (Nat.repr 1234567) :=
  formatPrice_spec.2.2.2.2.1 1234567 (by decide)

/-- C8: `createTourCardHTML` is deterministic — two calls whose offers
agree on every field and whose indices are equal return the identical card
string; the output depends on nothing but the offer's fields and the
index. -/
theorem createTourCardHTML_deterministic (t1 t2 : Tour) (i1 i2 : Nat)
    (h1 : t1.hotel_name = t2.hotel_name)
    (h2 : t1.hotel_stars = t2.hotel_stars)
    (h3 : t1.stars_display = t2.stars_display)
    (h4 : t1.hotel_rating = t2.hotel_rating)
    (h5 : t1.operator = t2.operator)
    (h6 : t1.country = t2.country)
    (h7 : t1.resort = t2.resort)
    (h8 : t1.region = t2.region)
    (h9 : t1.date_from = t2.date_from)
    (h10 : t1.date_to = t2.date_to)
    (h11 : t1.nights = t2.nights)
    (h12 : t1.price = t2.price)
    (h13 : t1.price_per_person = t2.price_per_person)
    (h14 : t1.meal_description = t2.meal_description)
    (h15 : t1.food_type = t2.food_type)
    (h16 : t1.room_type = t2.room_type)
    (h17 : t1.image_url = t2.image_url)
    (h18 : t1.hotel_photo = t2.hotel_photo)
    (h19 : t1.hotel_link = t2.hotel_link)
    (h20 : t1.original_link = t2.original_link)
    (h21 : t1.id = t2.id)
    (h22 : t1.departure_city = t2.departure_city)
    (hidx : i1 = i2) :
    createTourCardHTML t1 i1 = createTourCardHTML t2 i2 := by
  have ht : t1 = t2 := by
    cases t1
    cases t2
    simp only [Tour.mk.injEq]
    exact ⟨h1, h2, h3, h4, h5, h6, h7, h8, h9, h10, h11, h12, h13, h14, h15,
      h16, h17, h18, h19, h20, h21, h22⟩
  rw [ht, hidx]

/-- Closed instance of C8 at a concrete offer and index. -/
theorem createTourCardHTML_deterministic_witness :
    createTourCardHTML sampleTour 0 = createTourCardHTML sampleTour 0 :=
  createTourCardHTML_deterministic sampleTour sampleTour 0 0 rfl rfl rfl rfl
    rfl rfl rfl rfl rfl rfl rfl rfl rfl rfl rfl rfl rfl rfl rfl rfl rfl rfl rfl

/-- C9 fails as stated: for an offer whose star rating is absent (and with
no `stars_display` override) the claim predicts the empty glyph string, but
the card builder defaults the rating to 4 and renders "★★★★". -/
theorem stars_default_counterexample :
    starsDisplayOf noStarsTour = "★★★★" ∧ starsDisplayOf noStarsTour ≠ "" := by
  decide

/-- C9 (amended): `generateStars` itself renders a zero or absent count as
the empty string and a positive count as that many star glyphs; in
`createTourCardHTML`, however, an absent or zero `hotel_stars` defaults to
4 before glyph generation and an explicit `stars_display` value is used
verbatim — for an offer with a positive star rating and no override, the
glyph string is exactly the star character repeated rating-many times. -/
theorem stars_glyphs_match_rating :
    generateStars none = "" ∧ generateStars (some 0) = "" ∧
    starsValueOf noStarsTour = 4 ∧
    (∀ (t : Tour) (n : Nat), t.stars_display = none → t.hotel_stars = some n →
      0 < n → starsDisplayOf t = starRepeat n ∧ (starsDisplayOf t).length = n) := by
  refine ⟨rfl, rfl, rfl, ?_⟩
  intro t n hsd hhs hn
  have hne : ¬ n = 0 := by omega
  have hmain : starsDisplayOf t = starRepeat n := by
    simp [starsDisplayOf, starsValueOf, generateStars, jsOrS, jsOrN, hsd, hhs, hne]
  exact ⟨hmain, by rw [hmain, starRepeat_length]⟩

/-- Closed instance of the amended C9 at a five-star offer. -/
theorem stars_glyphs_match_rating_witness :
    starsDisplayOf sampleTour = starRepeat 5 ∧ (starsDisplayOf sampleTour).length = 5 :=
  stars_glyphs_match_rating.2.2.2 sampleTour 5 rfl rfl (by decide)

/-! ## Supporting lemmas for the backend models -/

/-- The required cascade never emits the star-rating question. -/
theorem cascadeRequired_ne_star (p : SearchParams) (q : QuestionKind)
    (h : cascadeRequired p = some q) : q ≠ QuestionKind.starRating := by
  rw [cascadeRequired_eq_find] at h
  cases hS : earliestMissingSlot p with
  | none => rw [hS] at h; simp at h
  | some S =>
    rw [hS] at h
    have h2 : questionOf p S = q := Option.some.inj h
    subst h2
    cases S <;> simp [questionOf]

/-- A delta that volunteers no required-slot value leaves the required
cascade unchanged. -/
theorem cascadeRequired_applyDelta (p : SearchParams) (d : Delta)
    (h1 : d.destination_country = none) (h2 : d.departure_city = none)
    (h3 : d.date_from = none) (h4 : d.nights = none) (h5 : d.adults = none)
    (h6 : d.child_count = none) (h7 : d.add_child_age = none) :
    cascadeRequired (applyDelta p d) = cascadeRequired p := by
  unfold cascadeRequired missingChildIndex childCount
  simp [applyDelta, mergeField, h1, h2, h3, h5, h6, h7]

/-- One conversation step never clears a forced `skip_quality_check`. -/
theorem convStep_skip (p : SearchParams) (e : ConvEvent)
    (h : p.skip_quality_check = true) :
    (convStep p e).skip_quality_check = true := by
  cases e with
  | userDelta d => simpa [convStep, applyDelta] using h
  | hotelResolved r => cases r <;> simp [convStep, applyResolve, h]

/-- No sequence of conversation events clears a forced
`skip_quality_check`. -/
theorem convRun_skip (es : List ConvEvent) (p : SearchParams)
    (h : p.skip_quality_check = true) :
    (convRun p es).skip_quality_check = true := by
  induction es generalizing p with
  | nil => exact h
  | cons e es ih =>
    simp only [convRun, List.foldl_cons]
    exact ih (convStep p e) (convStep_skip p e h)

/-- With `skip_quality_check` forced, the broad question flow never asks
the star-rating question. -/
theorem cascadeQuestion_no_star_of_skip (p : SearchParams)
    (h : p.skip_quality_check = true) :
    cascadeQuestion p ≠ CascadeResult.nextQuestion QuestionKind.starRating := by
  unfold cascadeQuestion
  cases hcr : cascadeRequired p with
  | some q =>
    intro hcontra
    injection hcontra with hq
    exact cascadeRequired_ne_star p q hcr hq
  | none =>
    rw [h]
    simp

/-- The request-lifecycle invariant holds initially. -/
theorem orchInv_init : OrchInv orchInit := by
  refine ⟨?_, ?_, ?_, ?_, ?_⟩ <;> simp [orchInit]

/-- One lifecycle event preserves the request-lifecycle invariant. -/
theorem orchInv_step (s : OrchState) (e : OrchEvent) (h : OrchInv s) :
    OrchInv (orchStep s e) := by
  obtain ⟨h1, h2, h3, h4, h5⟩ := h
  cases e with
  | hotToursCall => exact ⟨h1, h2, h3, h4, h5⟩
  | pollLimit =>
    cases hc : s.current with
    | none => simpa [orchStep, hc] using ⟨h1, h2, h3, h4, h5⟩
    | some pr =>
      obtain ⟨id, st⟩ := pr
      cases st with
      | pending =>
        simp only [orchStep, hc]
        refine ⟨h1, h2, ?_, ?_, h5⟩
        · intro id' st' h'
          injection h' with h'
          injection h' with ha hb
          subst ha
          exact h3 id ReqStatus.pending hc
        · intro id' h'
          injection h' with h'
          injection h' with ha hb
          cases hb
      | ready => simpa [orchStep, hc] using ⟨h1, h2, h3, h4, h5⟩
      | failed => simpa [orchStep, hc] using ⟨h1, h2, h3, h4, h5⟩
  | resultReady rid =>
    cases hc : s.current with
    | none => simpa [orchStep, hc] using ⟨h1, h2, h3, h4, h5⟩
    | some pr =>
      obtain ⟨cid, st⟩ := pr
      cases st with
      | pending =>
        by_cases he : cid = rid
        · subst he
          simp only [orchStep, hc, if_pos rfl]
          obtain ⟨hlt, hnab⟩ := h3 cid ReqStatus.pending hc
          have hnd := h4 cid hc
          refine ⟨h1, ?_, ?_, ?_, ?_⟩
          · intro d hd
            rcases List.mem_cons.mp hd with rfl | hd
            · exact hlt
            · exact h2 d hd
          · intro id' st' h'
            injection h' with h'
            injection h' with ha hb
            subst ha
            exact ⟨hlt, hnab⟩
          · intro id' h'
            injection h' with h'
            injection h' with ha hb
            cases hb
          · intro d hd
            rcases List.mem_cons.mp hd with rfl | hd
            · exact hnab
            · exact h5 d hd
        · simpa [orchStep, hc, he] using ⟨h1, h2, h3, h4, h5⟩
      | ready => simpa [orchStep, hc] using ⟨h1, h2, h3, h4, h5⟩
      | failed => simpa [orchStep, hc] using ⟨h1, h2, h3, h4, h5⟩
  | userTurn b =>
    cases b with
    | false => exact ⟨h1, h2, h3, h4, h5⟩
    | true =>
      cases hc : s.current with
      | none =>
        simp only [orchStep, hc]
        refine ⟨?_, ?_, ?_, ?_, h5⟩
        · intro a ha
          exact Nat.lt_succ_of_lt (h1 a ha)
        · intro d hd
          exact Nat.lt_succ_of_lt (h2 d hd)
        · intro id' st' h'
          injection h' with h'
          injection h' with ha hb
          subst ha
          exact ⟨Nat.lt_succ_self _, fun hmem => Nat.lt_irrefl _ (h1 _ hmem)⟩
        · intro id' h'
          injection h' with h'
          injection h' with ha hb
          subst ha
          exact fun hmem => Nat.lt_irrefl _ (h2 _ hmem)
      | some pr =>
        obtain ⟨id, st⟩ := pr
        cases st with
        | pending =>
          simp only [orchStep, hc]
          obtain ⟨hlt, hnab⟩ := h3 id ReqStatus.pending hc
          have hnd := h4 id hc
          refine ⟨?_, ?_, ?_, ?_, ?_⟩
          · intro a ha
            rcases List.mem_cons.mp ha with rfl | ha
            · exact Nat.lt_succ_of_lt hlt
            · exact Nat.lt_succ_of_lt (h1 a ha)
          · intro d hd
            exact Nat.lt_succ_of_lt (h2 d hd)
          · intro id' st' h'
            injection h' with h'
            injection h' with ha hb
            subst ha
            refine ⟨Nat.lt_succ_self _, ?_⟩
            intro hmem
            rcases List.mem_cons.mp hmem with heq | hmem
            · exact Nat.lt_irrefl _ (heq ▸ hlt)
            · exact Nat.lt_irrefl _ (h1 _ hmem)
          · intro id' h'
            injection h' with h'
            injection h' with ha hb
            subst ha
            exact fun hmem => Nat.lt_irrefl _ (h2 _ hmem)
          · intro d hd
            intro hmem
            rcases List.mem_cons.mp hmem with heq | hmem
            · exact hnd (heq ▸ hd)
            · exact h5 d hd hmem
        | ready =>
          simp only [orchStep, hc]
          refine ⟨?_, ?_, ?_, ?_, h5⟩
          · intro a ha
            exact Nat.lt_succ_of_lt (h1 a ha)
          · intro d hd
            exact Nat.lt_succ_of_lt (h2 d hd)
          · intro id' st' h'
            injection h' with h'
            injection h' with ha hb
            subst ha
            exact ⟨Nat.lt_succ_self _, fun hmem => Nat.lt_irrefl _ (h1 _ hmem)⟩
          · intro id' h'
            injection h' with h'
            injection h' with ha hb
            subst ha
            exact fun hmem => Nat.lt_irrefl _ (h2 _ hmem)
        | failed =>
          simp only [orchStep, hc]
          refine ⟨?_, ?_, ?_, ?_, h5⟩
          · intro a ha
            exact Nat.lt_succ_of_lt (h1 a ha)
          · intro d hd
            exact Nat.lt_succ_of_lt (h2 d hd)
          · intro id' st' h'
            injection h' with h'
            injection h' with ha hb
            subst ha
            exact ⟨Nat.lt_succ_self _, fun hmem => Nat.lt_irrefl _ (h1 _ hmem)⟩
          · intro id' h'
            injection h' with h'
            injection h' with ha hb
            subst ha
            exact fun hmem => Nat.lt_irrefl _ (h2 _ hmem)

/-- A whole run preserves the request-lifecycle invariant. -/
theorem orchInv_run (es : List OrchEvent) (s : OrchState) (h : OrchInv s) :
    OrchInv (orchRun s es) := by
  induction es generalizing s with
  | nil => exact h
  | cons e es ih =>
    simp only [orchRun, List.foldl_cons]
    exact ih (orchStep s e) (orchInv_step s e h)

theorem monthLength_pos (m : Nat) (hm1 : 1 ≤ m) (hm2 : m ≤ 12) :
    1 ≤ monthLength m := by
  interval_cases m <;> decide

theorem monthLength_zero_of_ge (m : Nat) (h : 13 ≤ m) : monthLength m = 0 := by
  obtain ⟨k, rfl⟩ : ∃ k, m = k + 13 := ⟨m - 13, by omega⟩
  rfl

/-- Stepping a valid non-year-end date stays valid and advances the day of
the year by exactly one. -/
theorem nextDay_dayOfYear (d : SimpleDate) (hv : ValidDate d)
    (hne : ¬(d.day = monthLength d.month ∧ d.month = 12)) :
    ValidDate (nextDay d) ∧ dayOfYear (nextDay d) = dayOfYear d + 1 := by
  obtain ⟨hd1, hd2, hm1, hm2⟩ := hv
  by_cases hlt : d.day < monthLength d.month
  · rw [nextDay, if_pos hlt]
    constructor
    · simp only [ValidDate]
      omega
    · simp only [dayOfYear]
      omega
  · have hdeq : d.day = monthLength d.month := by omega
    have hm12 : d.month < 12 := by
      rcases Nat.lt_or_ge d.month 12 with h | h
      · exact h
      · exact absurd ⟨hdeq, by omega⟩ hne
    rw [nextDay, if_neg hlt]
    have hpos : 1 ≤ monthLength (d.month + 1) :=
      monthLength_pos (d.month + 1) (by omega) (by omega)
    constructor
    · simp only [ValidDate]
      omega
    · simp only [dayOfYear, daysBeforeMonth]
      omega

theorem nextDay_month_ge (d : SimpleDate) (h : 13 ≤ d.month) :
    13 ≤ (nextDay d).month := by
  rw [nextDay, monthLength_zero_of_ge d.month h, if_neg (Nat.not_lt_zero _)]
  simp only
  omega

theorem iterate_month_ge (n : Nat) (d : SimpleDate) (h : 13 ≤ d.month) :
    13 ≤ (nextDay^[n] d).month := by
  induction n generalizing d with
  | zero => exact h
  | succ n ih =>
    rw [Function.iterate_succ_apply]
    exact ih (nextDay d) (nextDay_month_ge d h)

/-- Iterating the day successor `n` times from a valid date advances the
day of the year by `n`, provided the result is still a valid date of the
same year. -/
theorem dayOfYear_iterate (n : Nat) (x : SimpleDate) (hx : ValidDate x)
    (hy : ValidDate (nextDay^[n] x)) :
    dayOfYear (nextDay^[n] x) = dayOfYear x + n := by
  induction n generalizing x with
  | zero => simp
  | succ n ih =>
    by_cases hend : x.day = monthLength x.month ∧ x.month = 12
    · exfalso
      have h13 : 13 ≤ (nextDay x).month := by
        rw [nextDay, if_neg (by omega)]
        simp only
        omega
      have hge := iterate_month_ge n (nextDay x) h13
      rw [Function.iterate_succ_apply] at hy
      have := hy.2.2.2
      omega
    · have hstep := nextDay_dayOfYear x hx hend
      rw [Function.iterate_succ_apply] at hy ⊢
      rw [ih (nextDay x) hstep.1 hy, hstep.2]
      omega

theorem mem_insertByPrice (o x : HotTour) (l : List HotTour) :
    x ∈ insertByPrice o l ↔ x = o ∨ x ∈ l := by
  induction l with
  | nil => simp [insertByPrice]
  | cons y ys ih =>
    simp only [insertByPrice]
    by_cases hle : o.price ≤ y.price
    · rw [if_pos hle]
      simp [List.mem_cons]
    · rw [if_neg hle]
      simp only [List.mem_cons, ih]
      tauto

theorem priceSorted_insert (o : HotTour) (l : List HotTour)
    (h : PriceSorted l) : PriceSorted (insertByPrice o l) := by
  induction l with
  | nil => simp [insertByPrice, PriceSorted]
  | cons y ys ih =>
    obtain ⟨hy, hys⟩ := List.pairwise_cons.mp h
    simp only [insertByPrice]
    by_cases hle : o.price ≤ y.price
    · rw [if_pos hle]
      refine List.Pairwise.cons ?_ h
      intro b hb
      rcases List.mem_cons.mp hb with rfl | hb
      · exact hle
      · exact Nat.le_trans hle (hy b hb)
    · rw [if_neg hle]
      refine List.Pairwise.cons ?_ (ih hys)
      intro b hb
      rcases (mem_insertByPrice o b ys).mp hb with rfl | hb
      · omega
      · exact hy b hb

theorem priceSorted_sortByPrice (l : List HotTour) :
    PriceSorted (sortByPrice l) := by
  induction l with
  | nil => simp [sortByPrice, PriceSorted]
  | cons x xs ih =>
    simp only [sortByPrice]
    exact priceSorted_insert x (sortByPrice xs) ih

theorem length_insertByPrice (o : HotTour) (l : List HotTour) :
    (insertByPrice o l).length = l.length + 1 := by
  induction l with
  | nil => rfl
  | cons y ys ih =>
    simp only [insertByPrice]
    by_cases hle : o.price ≤ y.price
    · rw [if_pos hle]
      simp
    · rw [if_neg hle]
      simp [ih]

theorem length_sortByPrice (l : List HotTour) :
    (sortByPrice l).length = l.length := by
  induction l with
  | nil => rfl
  | cons x xs ih =>
    simp only [sortByPrice]
    rw [length_insertByPrice, ih]
    rfl

/-! ## Claims about the backend orchestration core -/

/-- C1: for every session whose earliest unsatisfied required slot (in the
fixed order destination country, departure city, dates, party size) is S,
the Cascade Validator under a non-bypass intent returns exactly the
question of S — never a later slot's question — and a value volunteered out
of order (an optional filter such as stars) is stored immediately without
changing which question is asked. -/
theorem cascade_asks_earliest_missing (intent : Intent) (p : SearchParams) (S : Slot)
    (hintent : intent = Intent.specificHotel ∨ intent = Intent.parametricSearch)
    (hS : earliestMissingSlot p = some S) :
    cascadeValidate intent p = CascadeResult.nextQuestion (questionOf p S) ∧
    ∀ d : Delta, d.destination_country = none → d.departure_city = none →
      d.date_from = none → d.nights = none → d.adults = none →
      d.child_count = none → d.add_child_age = none →
      (applyDelta p d).stars = mergeField d.stars p.stars ∧
      cascadeValidate intent (applyDelta p d) =
        CascadeResult.nextQuestion (questionOf p S) := by
  have hcr : cascadeRequired p = some (questionOf p S) := by
    rw [cascadeRequired_eq_find, hS]
    rfl
  have main : ∀ q : SearchParams, cascadeRequired q = some (questionOf p S) →
      cascadeValidate intent q = CascadeResult.nextQuestion (questionOf p S) := by
    intro q hq
    rcases hintent with rfl | rfl
    · simp [cascadeValidate, hq]
    · simp [cascadeValidate, cascadeQuestion, hq]
  refine ⟨main p hcr, ?_⟩
  intro d h1 h2 h3 h4 h5 h6 h7
  refine ⟨rfl, ?_⟩
  apply main
  rw [cascadeRequired_applyDelta p d h1 h2 h3 h4 h5 h6 h7]
  exact hcr

/-- Closed instance of C1: with only the destination country known, the
next question is the departure city, also after volunteering a star
filter out of order. -/
theorem cascade_asks_earliest_missing_witness :
    cascadeValidate Intent.parametricSearch pC1 =
      CascadeResult.nextQuestion (questionOf pC1 Slot.departure) ∧
    cascadeValidate Intent.parametricSearch (applyDelta pC1 dStars) =
      CascadeResult.nextQuestion (questionOf pC1 Slot.departure) :=
  ⟨(cascade_asks_earliest_missing Intent.parametricSearch pC1 Slot.departure
      (Or.inr rfl) (by decide)).1,
   ((cascade_asks_earliest_missing Intent.parametricSearch pC1 Slot.departure
      (Or.inr rfl) (by decide)).2 dStars rfl rfl rfl rfl rfl rfl rfl).2⟩

/-- C2: with the earlier slots filled, C declared children and only K < C
collected ages, the Cascade Validator asks for the (K+1)-th child age and
never proceeds — a child declared without an age is an unresolved slot,
not a default of zero. -/
theorem child_age_questions_block (p : SearchParams) (C K : Nat)
    (hc : p.destination_country.isSome = true)
    (hcity : p.departure_city.isSome = true)
    (hdate : p.date_from.isSome = true)
    (hadults : p.adults.isSome = true)
    (hcount : p.child_count = some C)
    (hages : p.child_ages.length = K)
    (hlt : K < C) :
    cascadeValidate Intent.parametricSearch p =
      CascadeResult.nextQuestion (QuestionKind.childAge (K + 1)) ∧
    cascadeValidate Intent.parametricSearch p ≠ CascadeResult.proceed := by
  obtain ⟨a, ha⟩ := Option.isSome_iff_exists.mp hc
  obtain ⟨b, hb⟩ := Option.isSome_iff_exists.mp hcity
  obtain ⟨c2, hc2⟩ := Option.isSome_iff_exists.mp hdate
  obtain ⟨e, he⟩ := Option.isSome_iff_exists.mp hadults
  have hreq : cascadeRequired p = some (QuestionKind.childAge (K + 1)) := by
    unfold cascadeRequired missingChildIndex childCount
    rw [ha, hb, hc2, he, hcount, hages]
    simp [hlt]
  constructor
  · simp [cascadeValidate, cascadeQuestion, hreq]
  · simp [cascadeValidate, cascadeQuestion, hreq]

/-- Closed instance of C2: child_count = 2 with child_ages = [5] yields the
question for the second child's age, never proceed. -/
theorem child_age_questions_block_witness :
    cascadeValidate Intent.parametricSearch pC2 =
      CascadeResult.nextQuestion (QuestionKind.childAge 2) ∧
    cascadeValidate Intent.parametricSearch pC2 ≠ CascadeResult.proceed :=
  child_age_questions_block pC2 2 1 rfl rfl rfl rfl rfl rfl (by decide)

/-- C3: in every orchestrator state reachable from the start no delivered
result set comes from an abandoned (superseded) request, and a user turn
that changes a search-affecting slot while a request is pending abandons
that request and submits a fresh pending one. -/
theorem stale_request_never_delivered (es : List OrchEvent) :
    (∀ d ∈ (orchRun orchInit es).delivered, d ∉ (orchRun orchInit es).abandoned) ∧
    (∀ id, (orchRun orchInit es).current = some (id, ReqStatus.pending) →
      (orchStep (orchRun orchInit es) (OrchEvent.userTurn true)).abandoned =
        id :: (orchRun orchInit es).abandoned ∧
      (orchStep (orchRun orchInit es) (OrchEvent.userTurn true)).current =
        some ((orchRun orchInit es).nextId, ReqStatus.pending)) := by
  have hinv := orchInv_run es orchInit orchInv_init
  refine ⟨hinv.2.2.2.2, ?_⟩
  intro id hc
  constructor <;> simp [orchStep, hc]

/-- Closed instance of C3: request 0 is superseded and abandoned, the
result of fresh request 1 is delivered and is not from an abandoned
request; abandoning a concrete pending request resubmits a fresh one. -/
theorem stale_request_never_delivered_witness :
    ((1 : Nat) ∉ (orchRun orchInit
      [OrchEvent.userTurn true, OrchEvent.userTurn true,
        OrchEvent.resultReady 1]).abandoned) ∧
    (orchStep (orchRun orchInit [OrchEvent.userTurn true])
        (OrchEvent.userTurn true)).abandoned =
      0 :: (orchRun orchInit [OrchEvent.userTurn true]).abandoned ∧
    (orchStep (orchRun orchInit [OrchEvent.userTurn true])
        (OrchEvent.userTurn true)).current =
      some ((orchRun orchInit [OrchEvent.userTurn true]).nextId, ReqStatus.pending) :=
  ⟨(stale_request_never_delivered [OrchEvent.userTurn true, OrchEvent.userTurn true,
      OrchEvent.resultReady 1]).1 1 (by decide),
   ((stale_request_never_delivered [OrchEvent.userTurn true]).2 0 (by decide)).1,
   ((stale_request_never_delivered [OrchEvent.userTurn true]).2 0 (by decide)).2⟩

/-- C4: on an empty filtered result set the Fallback Planner emits exactly
one proposal (never zero, never more than one), selected by the fixed
priority — widen the date window (to at most ±5 days), else an alternate
departure city when more than one is configured viable, else an alternate
similar destination — and handling the empty result leaves the session's
explicit hotel and date constraints untouched. -/
theorem fallback_exactly_one_in_priority (st : FallbackState) :
    (planFallback st).length = 1 ∧
    (st.widenDays < 5 →
      planFallback st = [FallbackAction.widenDates (st.widenDays + 1)]) ∧
    (¬ st.widenDays < 5 → 1 < st.viableCities.length →
      planFallback st = [FallbackAction.altCity (altCityOf st)]) ∧
    (¬ st.widenDays < 5 → ¬ 1 < st.viableCities.length →
      planFallback st = [FallbackAction.altDestination st.similarDestination]) ∧
    (handleEmptyResult st).1.params.hotels = st.params.hotels ∧
    (handleEmptyResult st).1.params.date_from = st.params.date_from ∧
    (handleEmptyResult st).1.params.nights = st.params.nights := by
  unfold planFallback fallbackCandidates handleEmptyResult
  by_cases h1 : st.widenDays < 5 <;> by_cases h2 : 1 < st.viableCities.length <;>
    simp [h1, h2]

/-- Closed instance of C4: at the default ±2-day window the single
proposal is to widen the window to ±3 days. -/
theorem fallback_exactly_one_in_priority_witness :
    (planFallback fbSample).length = 1 ∧
    planFallback fbSample = [FallbackAction.widenDates 3] :=
  ⟨(fallback_exactly_one_in_priority fbSample).1,
   (fallback_exactly_one_in_priority fbSample).2.1 (by decide)⟩

/-- C5: interpreting an explicit "from X to Y" date range stores
date_from = X and nights = the number of days from X to Y (the number of
calendar day-successor steps); in particular 05.06–12.06 yields exactly 7
nights (see the closed instance). -/
theorem date_range_sets_from_and_nights (p : SearchParams) (x y : SimpleDate)
    (n : Nat) (hx : ValidDate x) (hy : ValidDate y)
    (hiter : nextDay^[n] x = y) :
    (interpretDateRange x y p).date_from = some x ∧
    (interpretDateRange x y p).nights = some n := by
  refine ⟨rfl, ?_⟩
  subst hiter
  have hdiff : dayOfYear (nextDay^[n] x) - dayOfYear x = n := by
    rw [dayOfYear_iterate n x hx hy]
    omega
  simp only [interpretDateRange, daysBetween, hdiff]

/-- Closed instance of C5: the range 05.06–12.06 gives nights = 7. -/
theorem date_range_sets_from_and_nights_witness :
    (interpretDateRange ⟨5, 6⟩ ⟨12, 6⟩ emptyParams).date_from =
      some (⟨5, 6⟩ : SimpleDate) ∧
    (interpretDateRange ⟨5, 6⟩ ⟨12, 6⟩ emptyParams).nights = some 7 :=
  date_range_sets_from_and_nights emptyParams ⟨5, 6⟩ ⟨12, 6⟩ 7
    (by decide) (by decide) (by decide)

/-- C6: a single hotel match sets the explicit hotel list to [id], forces
skip_quality_check = true and fills the star slot from the match's data;
and in every session state reachable afterwards (further user deltas and
resolver outcomes) the star-rating question is never asked. -/
theorem resolved_hotel_skips_star_question (p : SearchParams) (h : Hotel)
    (es : List ConvEvent) :
    (applyResolve p (ResolveResult.singleMatch h)).hotels = [h.id] ∧
    (applyResolve p (ResolveResult.singleMatch h)).skip_quality_check = true ∧
    (applyResolve p (ResolveResult.singleMatch h)).stars = some h.stars ∧
    cascadeQuestion (convRun (applyResolve p (ResolveResult.singleMatch h)) es) ≠
      CascadeResult.nextQuestion QuestionKind.starRating := by
  refine ⟨rfl, rfl, rfl, ?_⟩
  apply cascadeQuestion_no_star_of_skip
  exact convRun_skip es _ rfl

/-- C7: a hot-tours search is a single synchronous computation returning at
most maxItems offers sorted ascending by price, and it leaves the
orchestrator's request state untouched — no polling request is created. -/
theorem hot_tours_sorted_and_bounded (inventory : List HotTour)
    (departure : Nat) (country : Option Nat) (maxItems : Nat) (s : OrchState) :
    PriceSorted (get_hot_tours inventory departure country maxItems) ∧
    (get_hot_tours inventory departure country maxItems).length ≤ maxItems ∧
    (orchStep s OrchEvent.hotToursCall).current = s.current ∧
    (orchStep s OrchEvent.hotToursCall).nextId = s.nextId ∧
    (orchStep s OrchEvent.hotToursCall).abandoned = s.abandoned := by
  refine ⟨priceSorted_sortByPrice _, ?_, rfl, rfl, rfl⟩
  unfold get_hot_tours
  rw [length_sortByPrice, List.length_take]
  exact Nat.min_le_left _ _

end Mgp
